import Mathlib

/-!
Verification development for the ow2stats scraper core
(`src/scrape/src/scrape.py`, `src/scrape/src/client.py`,
`src/scrape/models.py`).

The Python code is shallowly embedded: JSON values become an inductive
`Json` type, Python exceptions become the `Except PyErr` monad, network
responses become explicit `HttpResult` / `UploadResult` inputs, and the
sweep driver becomes a pure function producing an event trace plus the
completed/failed counters.
-/

set_option autoImplicit false

namespace Ow2stats

/-- The Python exception classes that the scraper's `try`/`except`
blocks distinguish. -/
inductive PyErr where
  | requestException
  | jsonDecodeError
  | keyError
  | typeError
  | attributeError
  deriving DecidableEq, Repr

/-- A parsed JSON value, as produced by `resp.json()`.  Numbers are
represented as rationals; the scraper never computes with them, it only
copies them through, so this is faithful up to representation. -/
inductive Json where
  | null
  | bool (b : Bool)
  | num (q : Rat)
  | str (s : String)
  | arr (elems : List Json)
  | obj (fields : List (String × Json))

namespace Json

/-- Python `isinstance(data, dict)`. -/
def isDict : Json → Bool
  | .obj _ => true
  | _ => false

/-- Python `key in data` for a dict (`False` on non-dicts, matching the
short-circuit `not isinstance(data, dict) or key not in data`). -/
def hasKey : Json → String → Bool
  | .obj fs, k => fs.any (fun kv => kv.1 == k)
  | _, _ => false

end Json

/-- Python subscript `x[k]` with a string key: `KeyError` when the key is
absent from a dict, `TypeError` when `x` is not a dict. -/
def pyGetItem (j : Json) (k : String) : Except PyErr Json :=
  match j with
  | .obj fs =>
    match fs.find? (fun kv => kv.1 == k) with
    | some kv => .ok kv.2
    | none => .error .keyError
  | _ => .error .typeError

/-- Python iteration `for x in j`: lists yield their elements, strings
yield their characters (as one-character strings), dicts yield their
keys; other values raise `TypeError`. -/
def pyIter (j : Json) : Except PyErr (List Json) :=
  match j with
  | .arr xs => .ok xs
  | .str s => .ok (s.data.map (fun c => Json.str (String.mk [c])))
  | .obj fs => .ok (fs.map (fun kv => Json.str kv.1))
  | _ => .error .typeError

/-- Whether the keyword set of a `**`-unpacked dict matches the required
field names of a dataclass constructor exactly (anything else raises
`TypeError`: a missing or an unexpected keyword argument). -/
def keysMatch (fs : List (String × Json)) (req : List String) : Bool :=
  fs.length == req.length && req.all (fun k => fs.any (fun kv => kv.1 == k))

/-- Field lookup used after `keysMatch` has guaranteed presence. -/
def getField (fs : List (String × Json)) (k : String) : Json :=
  match fs.find? (fun kv => kv.1 == k) with
  | some kv => kv.2
  | none => Json.null

/-! ## Data model (`src/scrape/models.py`)

Python dataclasses do not check the types of the values bound to their
fields, so each field stores a raw `Json` value. -/

/-- Dataclass `HeroCells`. -/
structure HeroCells where
  name : Json
  pickrate : Json
  winrate : Json

/-- Dataclass `Hero`. -/
structure Hero where
  color : Json
  name : Json
  portrait : Json
  role : Json
  roleIcon : Json

/-- Dataclass `HeroRate`. -/
structure HeroRate where
  id : Json
  cells : HeroCells
  hero : Hero

/-- Dataclass `RoleExtrema`. -/
structure RoleExtrema where
  maxwr : Json
  minwr : Json
  maxpr : Json
  minpr : Json

/-- Dataclass `Extrema`. -/
structure Extrema where
  all : RoleExtrema
  tank : RoleExtrema
  damage : RoleExtrema
  support : RoleExtrema

/-- Dataclass `Selected`. -/
structure Selected where
  input : Json
  map : Json
  region : Json
  role : Json
  rq : Json
  tier : Json

/-- Dataclass `OverwatchStats`. -/
structure OverwatchStats where
  rates : List HeroRate
  extrema : Extrema
  selected : Selected

/-- Python `HeroCells(**j)`. -/
def mkHeroCells (j : Json) : Except PyErr HeroCells :=
  match j with
  | .obj fs =>
    if keysMatch fs ["name", "pickrate", "winrate"] then
      .ok ⟨getField fs "name", getField fs "pickrate", getField fs "winrate"⟩
    else .error .typeError
  | _ => .error .typeError

/-- Python `Hero(**j)`. -/
def mkHero (j : Json) : Except PyErr Hero :=
  match j with
  | .obj fs =>
    if keysMatch fs ["color", "name", "portrait", "role", "roleIcon"] then
      .ok ⟨getField fs "color", getField fs "name", getField fs "portrait",
           getField fs "role", getField fs "roleIcon"⟩
    else .error .typeError
  | _ => .error .typeError

/-- Python `RoleExtrema(**j)`. -/
def mkRoleExtrema (j : Json) : Except PyErr RoleExtrema :=
  match j with
  | .obj fs =>
    if keysMatch fs ["maxwr", "minwr", "maxpr", "minpr"] then
      .ok ⟨getField fs "maxwr", getField fs "minwr", getField fs "maxpr",
           getField fs "minpr"⟩
    else .error .typeError
  | _ => .error .typeError

/-- Python `Selected(**j)`. -/
def mkSelected (j : Json) : Except PyErr Selected :=
  match j with
  | .obj fs =>
    if keysMatch fs ["input", "map", "region", "role", "rq", "tier"] then
      .ok ⟨getField fs "input", getField fs "map", getField fs "region",
           getField fs "role", getField fs "rq", getField fs "tier"⟩
    else .error .typeError
  | _ => .error .typeError

/-- One element of the `rates` list comprehension in
`OverwatchStats.from_dict`:
`HeroRate(id=rate["id"], cells=HeroCells(**rate["cells"]), hero=Hero(**rate["hero"]))`,
with Python's left-to-right keyword-argument evaluation order. -/
def mkHeroRate (rate : Json) : Except PyErr HeroRate := do
  let i ← pyGetItem rate "id"
  let cellsJ ← pyGetItem rate "cells"
  let cells ← mkHeroCells cellsJ
  let heroJ ← pyGetItem rate "hero"
  let hero ← mkHero heroJ
  return ⟨i, cells, hero⟩

namespace OverwatchStats

/-- Python `OverwatchStats.from_dict` (`src/scrape/models.py`).  Any failure is
a `KeyError` or a `TypeError`, which the caller `_fetch_data` catches. -/
def from_dict (data : Json) : Except PyErr OverwatchStats := do
  let ratesJ ← pyGetItem data "rates"
  let rows ← pyIter ratesJ
  let rates ← rows.mapM mkHeroRate
  let extremaJ ← pyGetItem data "extrema"
  let allJ ← pyGetItem extremaJ "all"
  let exAll ← mkRoleExtrema allJ
  let tankJ ← pyGetItem extremaJ "tank"
  let exTank ← mkRoleExtrema tankJ
  let damageJ ← pyGetItem extremaJ "damage"
  let exDamage ← mkRoleExtrema damageJ
  let supportJ ← pyGetItem extremaJ "support"
  let exSupport ← mkRoleExtrema supportJ
  let selectedJ ← pyGetItem data "selected"
  let selected ← mkSelected selectedJ
  return ⟨rates, ⟨exAll, exTank, exDamage, exSupport⟩, selected⟩

end OverwatchStats

/-! ## Python string primitives -/

/-- The Latin-1 fragment of Python `str.lower()` on a single character:
ASCII `A`-`Z` and the accented uppercase letters U+00C0-U+00DE (except
the multiplication sign U+00D7) map to their lowercase forms 32 code
points higher; every other character is unchanged.  Every string handled
by the scraper's lookup tables lies in this fragment. -/
def pyLowerChar (c : Char) : Char :=
  if (65 ≤ c.toNat ∧ c.toNat ≤ 90) ∨
      (192 ≤ c.toNat ∧ c.toNat ≤ 222 ∧ c.toNat ≠ 215) then
    Char.ofNat (c.toNat + 32)
  else c

/-- Python `s.lower()` (on the Latin-1 fragment). -/
def pyLowerString (s : String) : String :=
  String.mk (s.data.map pyLowerChar)

/-- The ASCII whitespace characters Python `str.strip()` removes. -/
def isPyWhitespace (c : Char) : Bool :=
  c == ' ' || c == '\t' || c == '\n' || c == '\r' || c.toNat == 11 || c.toNat == 12

/-- Python `s.strip()`. -/
def pyStrip (s : String) : String :=
  String.mk (((s.data.dropWhile isPyWhitespace).reverse.dropWhile isPyWhitespace).reverse)

/-- Python `s.replace(" ", "-")`. -/
def pyReplaceSpaceHyphen (s : String) : String :=
  String.mk (s.data.map (fun c => if c == ' ' then '-' else c))

/-- Python `.lower()` on a dynamically-typed value: only strings have
the method, anything else raises `AttributeError`. -/
def pyLowerJson : Json → Except PyErr String
  | .str s => .ok (pyLowerString s)
  | _ => .error .attributeError

/-- An apostrophe, kept out of string literals. -/
def apos : String := String.mk ['\'']

/-! ## Fetcher/Transformer (`src/scrape/src/scrape.py`) -/

/-- The `rq_value` expression of `_build_url`:
`"1" if gamemode.lower() == "competitive" else "0"`. -/
def rq_value (gamemode : String) : String :=
  if pyLowerString gamemode == "competitive" then "1" else "0"

/-- The `map_param` expression of `_build_url`:
`map_name.lower().replace(" ", "-") if map_name != "All" else "all-maps"`. -/
def map_param (map_name : String) : String :=
  if map_name != "All" then pyReplaceSpaceHyphen (pyLowerString map_name) else "all-maps"

/-- The `params` dict of `_build_url`, in insertion order. -/
def build_url_params
    (platform region role gamemode map_name tier : String) : List (String × String) :=
  [("input", platform), ("map", map_param map_name), ("region", region),
   ("role", role), ("rq", rq_value gamemode), ("tier", tier)]

/-- Python `OverwatchScraper._build_url`. -/
def _build_url
    (base_url platform region role gamemode map_name tier : String) : String :=
  base_url ++ "?" ++
    String.intercalate "&"
      ((build_url_params platform region role gamemode map_name tier).map
        (fun kv => kv.1 ++ "=" ++ kv.2))

/-- The static `map_types` lookup table of `_get_map_type`. -/
def map_types : List (String × String) :=
  [("busan", "control"), ("ilios", "control"), ("lijiang tower", "control"),
   ("nepal", "control"), ("oasis", "control"), ("antarctic peninsula", "control"),
   ("samoa", "control"),
   ("circuit royal", "escort"), ("dorado", "escort"), ("havana", "escort"),
   ("junkertown", "escort"), ("rialto", "escort"), ("route 66", "escort"),
   ("shambali monastery", "escort"), ("watchpoint: gibraltar", "escort"),
   ("gibraltar", "escort"),
   ("blizzard world", "hybrid"), ("eichenwalde", "hybrid"), ("hollywood", "hybrid"),
   ("king" ++ apos ++ "s row", "hybrid"), ("kings row", "hybrid"),
   ("midtown", "hybrid"), ("numbani", "hybrid"),
   ("paraíso", "hybrid"), ("paraiso", "hybrid"),
   ("colosseo", "push"), ("esperança", "push"), ("esperanca", "push"),
   ("new queen street", "push"), ("runasapi", "push"),
   ("new junk city", "flashpoint"), ("suravasa", "flashpoint"),
   ("aatlis", "flashpoint"),
   ("hanaoka", "clash"), ("throne of anubis", "clash")]

/-- Python `OverwatchScraper._get_map_type`: look the normalized
(`map.lower().strip()`) name up in the static table; `dict.get` misses
and falsy (empty) values both fall through to `""`. -/
def _get_map_type (map : String) : String :=
  let normalized_name := pyStrip (pyLowerString map)
  match map_types.find? (fun kv => kv.1 == normalized_name) with
  | some kv => if kv.2.isEmpty then "" else kv.2
  | none => ""

/-- Modelled from the spec: the canonical upload record.  The repository
snapshot lacks `src/scrape/src/models.py`, the module from which
`src/scrape/src/scrape.py` imports `HeroStatsUpload`; the field list is
taken from the keyword arguments of the constructor call in
`_transform_to_hero_stats` and from spec section 3.  `pick_rate` and
`win_rate` are copied through unchanged, hence stay raw `Json`. -/
structure HeroStatsUpload where
  hero_id : String
  hero_class : String
  pick_rate : Json
  win_rate : Json
  region : String
  platform : String
  gamemode : String
  map : String
  map_type : String
  tier : String

/-- Python `OverwatchScraper._transform_to_hero_stats`.  The `.lower()` calls on
`hero_rate.id` and `hero_rate.hero.role` raise `AttributeError` when the
underlying JSON value is not a string; the parameters are genuine Python
strings, so their `.lower()` calls always succeed. -/
def _transform_to_hero_stats
    (hero_rate : HeroRate)
    (platform region gamemode map_name tier : String) : Except PyErr HeroStatsUpload := do
  let map_type := pyLowerString (_get_map_type map_name)
  let hero_id ← pyLowerJson hero_rate.id
  let hero_class ← pyLowerJson hero_rate.hero.role
  return ⟨hero_id, hero_class, hero_rate.cells.pickrate, hero_rate.cells.winrate,
          pyLowerString region, pyLowerString platform, pyLowerString gamemode,
          pyLowerString map_name, pyLowerString map_type, pyLowerString tier⟩

/-- What the one `requests.get` of `_fetch_data` produced, made an
explicit input: a `requests.RequestException` (connection error, timeout,
or a non-2xx status raised by `raise_for_status`), a body that does not
parse as JSON, or a parsed JSON body. -/
inductive HttpResult where
  | transportError
  | badJson
  | payload (data : Json)

/-- Python `OverwatchScraper._fetch_data`.  `RequestException` and
`JSONDecodeError` are caught; a non-dict body or one without a
`"selected"` key returns `None`; `KeyError`/`TypeError` from
`OverwatchStats.from_dict` (its only failure modes) are caught. -/
def _fetch_data (resp : HttpResult) : Option OverwatchStats :=
  match resp with
  | .transportError => none
  | .badJson => none
  | .payload data =>
    if !(data.isDict && data.hasKey "selected") then none
    else
      match OverwatchStats.from_dict data with
      | .ok stats => some stats
      | .error _ => none

/-- Python `OverwatchScraper._scrape_stats_page` (the spec's `fetchPage`): a
`None` or rate-less response yields `[]`; otherwise every row is
transformed, and a row whose transform raises propagates the exception
(`.error`). -/
def _scrape_stats_page
    (resp : HttpResult)
    (platform region gamemode map_name tier : String) : Except PyErr (List HeroStatsUpload) :=
  match _fetch_data resp with
  | none => .ok []
  | some api_response =>
    if api_response.rates.isEmpty then .ok []
    else
      api_response.rates.mapM
        (fun rate => _transform_to_hero_stats rate platform region gamemode map_name tier)

/-! ## Backend client (`src/scrape/src/client.py`) -/

/-- Outcome of the one `requests.post` of `upload_stats`: success, or a
`requests.RequestException` (transport failure or non-2xx status raised
by `raise_for_status`). -/
inductive UploadResult where
  | success
  | failure
  deriving DecidableEq

/-- Observable actions of `upload_stats`. -/
inductive UploadEvent where
  | post (batch : List HeroStatsUpload)
  | warnLogged (sample : HeroStatsUpload)

/-- Python `BackendClient.upload_stats`: empty batch is a logged no-op with no
POST; otherwise one POST of the whole batch, and on `RequestException`
a warning naming `stats[0]` — the exception is swallowed. -/
def upload_stats
    (stats : List HeroStatsUpload) (resp : UploadResult) : Except PyErr (List UploadEvent) :=
  match stats with
  | [] => .ok []
  | s0 :: _ =>
    match resp with
    | .success => .ok [.post stats]
    | .failure => .ok [.post stats, .warnLogged s0]

/-- Python `OverwatchScraper._save_stats`: early return on an empty list; any
exception escaping `upload_stats` is logged and re-raised. -/
def _save_stats
    (stats_list : List HeroStatsUpload) (resp : UploadResult) : Except PyErr (List UploadEvent) :=
  if stats_list.isEmpty then .ok []
  else
    match upload_stats stats_list resp with
    | .ok evs => .ok evs
    | .error e => .error e

/-! ## Sweep driver (`scrape_all_configurations`) -/

/-- One configuration dict of `scrape_all_configurations`. -/
structure Config where
  platform : String
  region : String
  gamemode : String
  map_name : String
  tier : String
  deriving DecidableEq, Repr

/-- The `configurations` work-list construction: nested loops with
platform outermost and map innermost, where the tier dimension collapses
to `["All"]` unless the gamemode is exactly `"Competitive"`. -/
def build_configurations
    (platforms regions gamemodes tiers maps : List String) : List Config :=
  platforms.flatMap fun platform =>
    regions.flatMap fun region =>
      gamemodes.flatMap fun gamemode =>
        (if gamemode == "Competitive" then tiers else ["All"]).flatMap fun tier =>
          maps.map fun map_name => ⟨platform, region, gamemode, map_name, tier⟩

/-- Observable actions of the sweep driver: one fetch+upload cycle for a
configuration, a retry-delay sleep, or an inter-configuration rate-limit
sleep. -/
inductive Event where
  | cycle (c : Config)
  | retrySleep
  | rateSleep
  deriving DecidableEq, Repr

/-- Result of (part of) the sweep: the ordered event trace and the two
counters. -/
structure LoopResult where
  events : List Event
  completed : Nat
  failed : Nat
  deriving DecidableEq, Repr

/-- The retry loop `for attempt in range(retry_attempts)` for a single
configuration, starting at a given attempt index.  `outcome attempt` is
whether the body `_scrape_stats_page` + `_save_stats` ran without
raising on that attempt: success increments `completed` and breaks; a
failure before the last attempt sleeps `retry_delay` and continues; a
failure on the last attempt increments `failed`. -/
def run_config_from (n : Nat) (outcome : Nat → Bool) (c : Config) (attempt : Nat) :
    LoopResult :=
  if attempt < n then
    if outcome attempt then ⟨[.cycle c], 1, 0⟩
    else if attempt < n - 1 then
      let rest := run_config_from n outcome c (attempt + 1)
      ⟨.cycle c :: .retrySleep :: rest.events, rest.completed, rest.failed⟩
    else ⟨[.cycle c], 0, 1⟩
  else ⟨[], 0, 0⟩
termination_by n - attempt
decreasing_by simp_wf; omega

/-- The full retry loop for one configuration. -/
def run_config (n : Nat) (outcome : Nat → Bool) (c : Config) : LoopResult :=
  run_config_from n outcome c 0

/-- Whether one fetch+upload attempt for a configuration runs without
raising, given that attempt's fetch and upload outcomes. -/
def attempt_outcome
    (resp : HttpResult) (upload : UploadResult)
    (platform region gamemode map_name tier : String) : Bool :=
  match _scrape_stats_page resp platform region gamemode map_name tier with
  | .error _ => false
  | .ok stats => (_save_stats stats upload).isOk

/-- The per-configuration loop of `scrape_all_configurations`: each
configuration runs its retry loop and is unconditionally followed by one
rate-limit sleep (`config.rate_limit_delay` exists).  `fetches idx
attempt` and `uploads idx attempt` are the network outcomes for attempt
`attempt` of the configuration at position `idx`. -/
def run_sweep (n : Nat) (fetches : Nat → Nat → HttpResult)
    (uploads : Nat → Nat → UploadResult) : List Config → Nat → LoopResult
  | [], _ => ⟨[], 0, 0⟩
  | c :: rest, idx =>
    ⟨(run_config n (fun attempt =>
        attempt_outcome (fetches idx attempt) (uploads idx attempt)
          c.platform c.region c.gamemode c.map_name c.tier) c).events ++
        Event.rateSleep :: (run_sweep n fetches uploads rest (idx + 1)).events,
     (run_config n (fun attempt =>
        attempt_outcome (fetches idx attempt) (uploads idx attempt)
          c.platform c.region c.gamemode c.map_name c.tier) c).completed +
        (run_sweep n fetches uploads rest (idx + 1)).completed,
     (run_config n (fun attempt =>
        attempt_outcome (fetches idx attempt) (uploads idx attempt)
          c.platform c.region c.gamemode c.map_name c.tier) c).failed +
        (run_sweep n fetches uploads rest (idx + 1)).failed⟩

/-- Python `OverwatchScraper.scrape_all_configurations`, with the retry count
`n = config.retry_attempts` and the network made an explicit input. -/
def scrape_all_configurations
    (platforms regions gamemodes tiers maps : List String) (n : Nat)
    (fetches : Nat → Nat → HttpResult)
    (uploads : Nat → Nat → UploadResult) : LoopResult :=
  run_sweep n fetches uploads (build_configurations platforms regions gamemodes tiers maps) 0

/-! ## Concrete envelopes for the end-to-end scenarios -/

/-- A valid `selected` echo object for the configuration
(platform=PC, region=Americas, gamemode=Quick Play, map=All, tier=All). -/
def selectedEcho : Json :=
  .obj [("input", .str "PC"), ("map", .str "all-maps"), ("region", .str "Americas"),
        ("role", .str "all"), ("rq", .str "0"), ("tier", .str "All")]

/-- A valid per-role extrema object. -/
def roleExtremaJson : Json :=
  .obj [("maxwr", .num 60), ("minwr", .num 40), ("maxpr", .num 20), ("minpr", .num 1)]

/-- A valid `extrema` object. -/
def extremaJson : Json :=
  .obj [("all", roleExtremaJson), ("tank", roleExtremaJson),
        ("damage", roleExtremaJson), ("support", roleExtremaJson)]

/-- The rate row exactly as the spec scenario writes it:
`{"id":"genji","cells":{"pickrate":12.5,"winrate":48.2},"hero":{"name":"Genji","role":"damage"}}`. -/
def genjiRowClaim : Json :=
  .obj [("id", .str "genji"),
        ("cells", .obj [("pickrate", .num 12.5), ("winrate", .num 48.2)]),
        ("hero", .obj [("name", .str "Genji"), ("role", .str "damage")])]

/-- The spec scenario's envelope `{"selected":{...}, "rates":[row]}`, with
the elided `selected` contents filled in with a fully valid echo. -/
def claimEnvelope : Json :=
  .obj [("selected", selectedEcho), ("rates", .arr [genjiRowClaim])]

/-- The same rate row with the full field sets the dataclasses require:
`cells` also carries `name`, and `hero` carries all five fields. -/
def genjiRowFull : Json :=
  .obj [("id", .str "genji"),
        ("cells", .obj [("name", .str "Genji"), ("pickrate", .num 12.5),
                        ("winrate", .num 48.2)]),
        ("hero", .obj [("color", .str "#abcdef"), ("name", .str "Genji"),
                       ("portrait", .str "genji.png"), ("role", .str "damage"),
                       ("roleIcon", .str "damage.svg")])]

/-- A fully well-formed envelope holding the single complete Genji row. -/
def goodEnvelope : Json :=
  .obj [("selected", selectedEcho), ("rates", .arr [genjiRowFull]),
        ("extrema", extremaJson)]

/-- The upload record the scenario expects for the Genji row under
(platform=PC, region=Americas, gamemode=Quick Play, map=All, tier=All). -/
def genjiUpload : HeroStatsUpload :=
  ⟨"genji", "damage", .num 12.5, .num 48.2, "americas", "pc", "quick play", "all", "", "all"⟩

/-- A malformed rate row: its `cells` dict lacks the required `name`
key, so `HeroCells(**cells)` raises `TypeError`. -/
def badRow : Json :=
  .obj [("id", .str "mercy"),
        ("cells", .obj [("pickrate", .num 5.0), ("winrate", .num 51.0)]),
        ("hero", .obj [("color", .str "#ffffff"), ("name", .str "Mercy"),
                       ("portrait", .str "mercy.png"), ("role", .str "support"),
                       ("roleIcon", .str "support.svg")])]

/-- An envelope with two rate rows, the first fully well-formed and the
second malformed. -/
def mixedEnvelope : Json :=
  .obj [("selected", selectedEcho), ("rates", .arr [genjiRowFull, badRow]),
        ("extrema", extremaJson)]

/-! ## Claim C1 -/

/-- C1 counterexample: on the envelope exactly as the spec scenario
writes it — one rate row whose `cells` holds only `pickrate`/`winrate`
and whose `hero` holds only `name`/`role` — `fetchPage`
(`_scrape_stats_page`) returns the empty list, not one upload record:
`HeroCells(**cells)` raises `TypeError` inside
`OverwatchStats.from_dict`, `_fetch_data` catches it and returns `None`.
The first conjunct pins the claimed input, the second the output. -/
theorem claim_scenario_envelope_rejected :
    _fetch_data (.payload claimEnvelope) = none ∧
    _scrape_stats_page (.payload claimEnvelope) "PC" "Americas" "Quick Play" "All" "All" =
      .ok [] :=
  ⟨rfl, rfl⟩

/-- C1 (amended): for the scenario envelope completed with the field
sets the dataclasses require — `cells` also carrying `name`, `hero`
carrying all five fields, and valid `extrema` metadata — fetching for
(platform=PC, region=Americas, gamemode=Quick Play, map=All, tier=All)
yields exactly one upload record with hero_id "genji", pick_rate 12.5,
win_rate 48.2, region "americas", platform "pc", gamemode "quick play",
map "all", tier "all" and map_type "". -/
theorem complete_envelope_yields_genji_record :
    _scrape_stats_page (.payload goodEnvelope) "PC" "Americas" "Quick Play" "All" "All" =
      .ok [genjiUpload] :=
  rfl

/-! ## Claim C3 -/

/-- A fetch that ends in a transport error, a non-JSON body, or a JSON
body without a `"selected"` dict key makes `_scrape_stats_page` return
`.ok []`. -/
theorem scrape_page_empty_on_bad_fetch
    (platform region gamemode map_name tier : String) :
    _scrape_stats_page .transportError platform region gamemode map_name tier = .ok [] ∧
    _scrape_stats_page .badJson platform region gamemode map_name tier = .ok [] ∧
    ∀ data : Json, (data.isDict && data.hasKey "selected") = false →
      _scrape_stats_page (.payload data) platform region gamemode map_name tier = .ok [] := by
  refine ⟨rfl, rfl, fun data h => ?_⟩
  simp [_scrape_stats_page, _fetch_data, h]

/-- C3: for every configuration, a transport failure (connection error,
timeout, non-2xx status — all `requests.RequestException`), a body that
does not parse as JSON, or a parsed body lacking the `"selected"` key
makes `fetchPage` (`_scrape_stats_page`) return the empty list without
raising (`.ok []`, never `.error`). -/
theorem fetch_failure_yields_empty
    (platform region gamemode map_name tier : String) :
    _scrape_stats_page .transportError platform region gamemode map_name tier = .ok [] ∧
    _scrape_stats_page .badJson platform region gamemode map_name tier = .ok [] ∧
    ∀ data : Json, (data.isDict && data.hasKey "selected") = false →
      _scrape_stats_page (.payload data) platform region gamemode map_name tier = .ok [] :=
  scrape_page_empty_on_bad_fetch platform region gamemode map_name tier

/-- C3 witness: the non-dict JSON body `[]` at a concrete configuration. -/
theorem fetch_failure_yields_empty_witness :
    ((Json.arr []).isDict && (Json.arr []).hasKey "selected") = false ∧
    _scrape_stats_page (.payload (Json.arr [])) "PC" "Americas" "Quick Play" "All" "All" =
      .ok [] :=
  ⟨rfl, (fetch_failure_yields_empty "PC" "Americas" "Quick Play" "All" "All").2.2
    (Json.arr []) rfl⟩

/-! ## Claim C6 -/

/-- C6: for every non-empty batch, a failing POST (transport failure or
non-2xx status, i.e. `requests.RequestException`) is swallowed by
`upload_stats`: it performs the POST, logs a warning carrying the first
record of the batch, and returns normally (`.ok`, never `.error`); and
`_save_stats`, which re-raises only what escapes `upload_stats`,
therefore also returns normally, so a failed upload never aborts the
sweep driver. -/
theorem upload_failure_logged_and_swallowed
    (s0 : HeroStatsUpload) (rest : List HeroStatsUpload) :
    upload_stats (s0 :: rest) .failure = .ok [.post (s0 :: rest), .warnLogged s0] ∧
    _save_stats (s0 :: rest) .failure = .ok [.post (s0 :: rest), .warnLogged s0] :=
  ⟨rfl, rfl⟩

/-! ## Claim C9 -/

/-- C9: `uploadBatch` (`upload_stats`) on the empty record list, for
either network outcome, performs no POST (empty event list) and does not
error (`.ok`); `_save_stats` likewise returns before calling it. -/
theorem upload_empty_noop (resp : UploadResult) :
    upload_stats [] resp = .ok [] ∧ _save_stats [] resp = .ok [] :=
  ⟨rfl, rfl⟩

/-! ## Claim C8 -/

/-- C8: in URL construction, a gamemode equal to "Competitive"
case-insensitively (its Python `.lower()` is `"competitive"`) yields
ranked-queue flag "1" and every other gamemode yields "0", and that flag
is exactly what `_build_url` places under the `rq` query key. -/
theorem competitive_rq_flag (gamemode : String) :
    (pyLowerString gamemode = "competitive" → rq_value gamemode = "1") ∧
    (pyLowerString gamemode ≠ "competitive" → rq_value gamemode = "0") ∧
    ∀ platform region role map_name tier : String,
      (build_url_params platform region role gamemode map_name tier).lookup "rq" =
        some (rq_value gamemode) := by
  refine ⟨fun h => ?_, fun h => ?_, fun p r ro m t => rfl⟩
  · simp [rq_value, h]
  · simp [rq_value, h]

/-- C8 witness: mixed-case "CoMpEtItIvE" yields flag "1", "Quick Play"
yields flag "0". -/
theorem competitive_rq_flag_witness :
    rq_value "CoMpEtItIvE" = "1" ∧ rq_value "Quick Play" = "0" :=
  ⟨(competitive_rq_flag "CoMpEtItIvE").1 (by decide),
   (competitive_rq_flag "Quick Play").2.1 (by decide)⟩

/-! ## Claim C7 -/

/-- C7 counterexample: map-type derivation is not accent-insensitive and
not apostrophe-insensitive in general: "ilíos" (accented variant of the
recognized "Ilios") and an apostrophized variant of the recognized
"Route 66" both fall to `""` while their plain spellings resolve to a
category — only the variant spellings explicitly present in the table
are tolerated. -/
theorem map_type_not_accent_insensitive :
    _get_map_type "ilíos" = "" ∧ _get_map_type "Ilios" = "control" ∧
    _get_map_type ("Rou" ++ apos ++ "te 66") = "" ∧ _get_map_type "Route 66" = "escort" :=
  ⟨by decide, by decide, by decide, by decide⟩

/-- C7 (amended): map-type derivation is total (a Lean function that
never raises) and case-insensitive for every input — two map names with
the same Python lowercase resolve identically; accent- and
apostrophe-insensitivity hold for the variant spellings enumerated in
the table (Paraíso/paraiso under any casing, King's Row/Kings Row,
Esperança/esperanca); and every input resolves either to the empty
string or to one of the six categories control, escort, hybrid, push,
flashpoint, clash. -/
theorem map_type_normalization :
    (∀ s t : String, pyLowerString s = pyLowerString t →
        _get_map_type s = _get_map_type t) ∧
    (_get_map_type "Paraíso" = "hybrid" ∧ _get_map_type "PARAÍSO" = "hybrid" ∧
     _get_map_type "paraiso" = "hybrid" ∧ _get_map_type "PARAISO" = "hybrid" ∧
     _get_map_type ("King" ++ apos ++ "s Row") = "hybrid" ∧
     _get_map_type "KINGS ROW" = "hybrid" ∧
     _get_map_type "Esperança" = "push" ∧ _get_map_type "esperanca" = "push") ∧
    (∀ s : String, _get_map_type s = "" ∨
        _get_map_type s ∈ ["control", "escort", "hybrid", "push", "flashpoint", "clash"]) := by
  refine ⟨fun s t h => ?_, ?_, fun s => ?_⟩
  · unfold _get_map_type
    rw [h]
  · exact ⟨by decide, by decide, by decide, by decide, by decide, by decide, by decide,
      by decide⟩
  · unfold _get_map_type
    cases hf : map_types.find? (fun kv => kv.1 == pyStrip (pyLowerString s)) with
    | none => simp [hf]
    | some kv =>
      have hmem : kv ∈ map_types := List.mem_of_find?_eq_some hf
      have hall : map_types.all
          (fun kv => !kv.2.isEmpty &&
            (kv.2 == "control" || kv.2 == "escort" || kv.2 == "hybrid" ||
             kv.2 == "push" || kv.2 == "flashpoint" || kv.2 == "clash")) = true := by decide
      have hkv := List.all_eq_true.mp hall kv hmem
      simp only [Bool.and_eq_true, Bool.or_eq_true, Bool.not_eq_true', beq_iff_eq] at hkv
      simp only [hf, hkv.1]
      simp only [List.mem_cons, List.not_mem_nil, or_false]
      tauto

/-- C7 witness: the case-insensitivity conjunct applied to the concrete
pair "PARAÍSO" / "paraíso", together with the concrete category of
"Paraíso". -/
theorem map_type_normalization_witness :
    _get_map_type "PARAÍSO" = _get_map_type "paraíso" ∧ _get_map_type "Paraíso" = "hybrid" :=
  ⟨map_type_normalization.1 "PARAÍSO" "paraíso" (by decide), map_type_normalization.2.1.1⟩

/-! ## Claim C2 -/

/-- Whether a JSON value is a string (has the `.lower()` method). -/
def Json.isStr : Json → Bool
  | .str _ => true
  | _ => false

/-- A parsed `HeroRate` row that `_transform_to_hero_stats` maps without
raising: its `id` and its `hero.role` are strings. -/
def transform_ok (hr : HeroRate) : Bool :=
  hr.id.isStr && hr.hero.role.isStr

theorem bind_ok_left {α β : Type} {x : Except PyErr α} {k : α → Except PyErr β} {b : β}
    (h : (x >>= k) = .ok b) : ∃ a, x = .ok a ∧ k a = .ok b := by
  cases x with
  | error e => simp [Bind.bind, Except.bind] at h
  | ok a => exact ⟨a, rfl, by simpa [Bind.bind, Except.bind] using h⟩

theorem mapM_ok_length {α β : Type} (f : α → Except PyErr β) :
    ∀ l : List α, (∀ x ∈ l, (f x).isOk = true) →
      ∃ l' : List β, l.mapM f = .ok l' ∧ l'.length = l.length := by
  intro l
  induction l with
  | nil => exact fun _ => ⟨[], rfl, rfl⟩
  | cons a t ih =>
    intro h
    have ha := h a (List.mem_cons_self a t)
    cases hfa : f a with
    | error e => rw [hfa] at ha; simp [Except.isOk, Except.toBool] at ha
    | ok b =>
      obtain ⟨l', hl', hlen⟩ := ih (fun x hx => h x (List.mem_cons_of_mem a hx))
      refine ⟨b :: l', ?_, by simp [hlen]⟩
      rw [List.mapM_cons, hfa, hl']
      rfl

theorem mapM_error_of_mem {α β : Type} (f : α → Except PyErr β) :
    ∀ l : List α, (∃ x ∈ l, ∃ e, f x = .error e) →
      ∃ e, l.mapM f = .error e := by
  intro l
  induction l with
  | nil => rintro ⟨x, hx, -⟩; exact absurd hx (List.not_mem_nil x)
  | cons a t ih =>
    rintro ⟨x, hx, e, hfx⟩
    cases hfa : f a with
    | error e' => exact ⟨e', by rw [List.mapM_cons, hfa]; rfl⟩
    | ok b =>
      rcases List.mem_cons.mp hx with rfl | hxt
      · rw [hfa] at hfx; exact absurd hfx (by simp)
      · obtain ⟨e', ht⟩ := ih ⟨x, hxt, e, hfx⟩
        exact ⟨e', by rw [List.mapM_cons, hfa, ht]; rfl⟩

theorem ok_bind {α β : Type} (a : α) (k : α → Except PyErr β) :
    (Except.ok a >>= k) = k a := rfl

theorem error_bind {α β : Type} (e : PyErr) (k : α → Except PyErr β) :
    ((Except.error e : Except PyErr α) >>= k) = .error e := rfl

theorem transform_isOk (hr : HeroRate) (platform region gamemode map_name tier : String)
    (h : transform_ok hr = true) :
    (_transform_to_hero_stats hr platform region gamemode map_name tier).isOk = true := by
  cases hi : hr.id <;> cases hro : hr.hero.role <;>
    simp [transform_ok, Json.isStr, hi, hro] at h
  simp [_transform_to_hero_stats, pyLowerJson, hi, hro, Bind.bind, Except.bind,
    pure, Except.pure, Except.isOk, Except.toBool]

theorem pyGetItem_ok_isDict {j : Json} {k : String} {v : Json}
    (h : pyGetItem j k = .ok v) : j.isDict = true := by
  cases j <;> (try rfl) <;> simp [pyGetItem] at h

theorem pyGetItem_ok_hasKey {j : Json} {k : String} {v : Json}
    (h : pyGetItem j k = .ok v) : j.hasKey k = true := by
  cases j <;> (try simp [pyGetItem] at h)
  case obj fs =>
    cases hf : fs.find? (fun kv => kv.1 == k) with
    | none => rw [hf] at h; exact absurd h (by simp)
    | some kv =>
      have hp := List.find?_some hf
      simp only [Json.hasKey]
      exact List.any_eq_true.mpr ⟨kv, List.mem_of_find?_eq_some hf, hp⟩

theorem from_dict_ok_fetch {data : Json} {stats : OverwatchStats}
    (h : OverwatchStats.from_dict data = .ok stats) :
    _fetch_data (.payload data) = some stats := by
  have h0 := h
  unfold OverwatchStats.from_dict at h
  obtain ⟨ratesJ, hg1, h⟩ := bind_ok_left h
  obtain ⟨rows, hg2, h⟩ := bind_ok_left h
  obtain ⟨rates, hg3, h⟩ := bind_ok_left h
  obtain ⟨extremaJ, hg4, h⟩ := bind_ok_left h
  obtain ⟨allJ, hg5, h⟩ := bind_ok_left h
  obtain ⟨exAll, hg6, h⟩ := bind_ok_left h
  obtain ⟨tankJ, hg7, h⟩ := bind_ok_left h
  obtain ⟨exTank, hg8, h⟩ := bind_ok_left h
  obtain ⟨damageJ, hg9, h⟩ := bind_ok_left h
  obtain ⟨exDamage, hg10, h⟩ := bind_ok_left h
  obtain ⟨supportJ, hg11, h⟩ := bind_ok_left h
  obtain ⟨exSupport, hg12, h⟩ := bind_ok_left h
  obtain ⟨selectedJ, hg13, h⟩ := bind_ok_left h
  have hd := pyGetItem_ok_isDict hg1
  have hk := pyGetItem_ok_hasKey hg13
  unfold _fetch_data
  simp [hd, hk, h0]

theorem fetch_none_of_from_dict_error {data : Json} {e : PyErr}
    (h : OverwatchStats.from_dict data = .error e) :
    _fetch_data (.payload data) = none := by
  unfold _fetch_data
  cases hc : data.isDict && data.hasKey "selected" <;> simp [hc, h]

theorem from_dict_error_of_bad_row {data : Json} {rows : List Json}
    (hrates : pyGetItem data "rates" = .ok (.arr rows))
    (hbad : ∃ r ∈ rows, ∃ e, mkHeroRate r = .error e) :
    ∃ e, OverwatchStats.from_dict data = .error e := by
  obtain ⟨e, hm⟩ := mapM_error_of_mem mkHeroRate rows hbad
  refine ⟨e, ?_⟩
  unfold OverwatchStats.from_dict
  rw [hrates, ok_bind, show pyIter (.arr rows) = Except.ok rows from rfl, ok_bind, hm,
    error_bind]

/-- C2 (amended): when `OverwatchStats.from_dict` accepts the envelope
and every parsed row transforms cleanly, `fetchPage`
(`_scrape_stats_page`) produces exactly as many upload records as the
envelope has rate rows; but when any rate row fails its individual
construction, `from_dict` raises for the whole envelope, `_fetch_data`
catches it and returns `None`, and `fetchPage` produces zero records —
row failure is batch-wide, not independent. -/
theorem transform_batch_behavior :
    (∀ (data : Json) (stats : OverwatchStats) (platform region gamemode map_name tier : String),
        OverwatchStats.from_dict data = .ok stats →
        (∀ hr ∈ stats.rates, transform_ok hr = true) →
        ∃ ups, _scrape_stats_page (.payload data) platform region gamemode map_name tier =
            .ok ups ∧ ups.length = stats.rates.length) ∧
    (∀ (data : Json) (rows : List Json) (platform region gamemode map_name tier : String),
        pyGetItem data "rates" = .ok (.arr rows) →
        (∃ r ∈ rows, ∃ e, mkHeroRate r = .error e) →
        _scrape_stats_page (.payload data) platform region gamemode map_name tier = .ok []) := by
  constructor
  · intro data stats p r g m t hok hrows
    have hfd : _fetch_data (.payload data) = some stats := from_dict_ok_fetch hok
    have hpage : _scrape_stats_page (.payload data) p r g m t =
        if stats.rates.isEmpty then .ok []
        else stats.rates.mapM (fun rate => _transform_to_hero_stats rate p r g m t) := by
      unfold _scrape_stats_page
      rw [hfd]
    cases hemp : stats.rates.isEmpty with
    | true =>
      refine ⟨[], by rw [hpage, hemp]; rfl, ?_⟩
      rw [List.isEmpty_iff.mp hemp]
      rfl
    | false =>
      obtain ⟨ups, hm, hlen⟩ :=
        mapM_ok_length (fun rate => _transform_to_hero_stats rate p r g m t) stats.rates
          (fun hr hmem => transform_isOk hr p r g m t (hrows hr hmem))
      refine ⟨ups, ?_, hlen⟩
      rw [hpage, hemp]
      exact hm
  · intro data rows p r g m t hrates hbad
    obtain ⟨e, he⟩ := from_dict_error_of_bad_row hrates hbad
    unfold _scrape_stats_page
    rw [fetch_none_of_from_dict_error he]

/-- The `OverwatchStats` value that `from_dict` parses out of
`goodEnvelope`. -/
def goodEnvelopeStats : OverwatchStats :=
  ⟨[⟨.str "genji", ⟨.str "Genji", .num 12.5, .num 48.2⟩,
     ⟨.str "#abcdef", .str "Genji", .str "genji.png", .str "damage", .str "damage.svg"⟩⟩],
   ⟨⟨.num 60, .num 40, .num 20, .num 1⟩, ⟨.num 60, .num 40, .num 20, .num 1⟩,
    ⟨.num 60, .num 40, .num 20, .num 1⟩, ⟨.num 60, .num 40, .num 20, .num 1⟩⟩,
   ⟨.str "PC", .str "all-maps", .str "Americas", .str "all", .str "0", .str "All"⟩⟩

/-- C2 witness: the well-formed one-row envelope yields exactly one
record, and the two-row envelope whose second row is malformed yields
zero records. -/
theorem transform_batch_behavior_witness :
    (∃ ups, _scrape_stats_page (.payload goodEnvelope) "PC" "Americas" "Quick Play" "All" "All" =
        .ok ups ∧ ups.length = goodEnvelopeStats.rates.length) ∧
    _scrape_stats_page (.payload mixedEnvelope) "PC" "Americas" "Quick Play" "All" "All" =
      .ok [] :=
  ⟨transform_batch_behavior.1 goodEnvelope goodEnvelopeStats "PC" "Americas" "Quick Play"
      "All" "All" rfl (by decide),
   transform_batch_behavior.2 mixedEnvelope [genjiRowFull, badRow] "PC" "Americas"
      "Quick Play" "All" "All" rfl
      ⟨badRow, List.Mem.tail _ (List.Mem.head _), .typeError, rfl⟩⟩

/-- C2 counterexample: an envelope with N = 2 rate rows of which the
first is fully well-formed (it parses, and alone it yields its record)
and the second is malformed (its `cells` lacks `name`) produces zero
upload records — the well-formed row does not survive, so row failure is
not independent and one bad row does discard the batch. -/
theorem malformed_row_discards_batch :
    (∃ hr, mkHeroRate genjiRowFull = .ok hr) ∧
    (∃ e, mkHeroRate badRow = .error e) ∧
    _scrape_stats_page (.payload goodEnvelope) "PC" "Americas" "Quick Play" "All" "All" =
      .ok [genjiUpload] ∧
    _scrape_stats_page (.payload mixedEnvelope) "PC" "Americas" "Quick Play" "All" "All" =
      .ok [] :=
  ⟨⟨_, rfl⟩, ⟨.typeError, rfl⟩, rfl, rfl⟩

/-! ## Claims C4, C5, C10: the sweep driver -/

/-- Whether an event is a retry-delay sleep. -/
def Event.isRetrySleep : Event → Bool
  | .retrySleep => true
  | _ => false

/-- The trace of a retry loop that fails `k` times and then succeeds:
`k` cycles each followed by a retry sleep, then the succeeding cycle. -/
def fail_pattern (c : Config) : Nat → List Event
  | 0 => [.cycle c]
  | k + 1 => .cycle c :: .retrySleep :: fail_pattern c k

theorem fail_pattern_countP (c : Config) :
    ∀ k, (fail_pattern c k).countP Event.isRetrySleep = k := by
  intro k
  induction k with
  | zero => rfl
  | succ k ih => simp [fail_pattern, List.countP_cons, Event.isRetrySleep, ih]

theorem run_config_first_success (n : Nat) (oc : Nat → Bool) (c : Config)
    (hn : 0 < n) (h0 : oc 0 = true) : run_config n oc c = ⟨[.cycle c], 1, 0⟩ := by
  unfold run_config run_config_from
  simp [hn, h0]

theorem run_config_from_retries (oc : Nat → Bool) (c : Config) :
    ∀ (k a n : Nat), a + k + 1 = n →
      (∀ i, i < n - 1 → oc i = false) → oc (n - 1) = true →
      run_config_from n oc c a = ⟨fail_pattern c k, 1, 0⟩ := by
  intro k
  induction k with
  | zero =>
    intro a n hn hfail hsucc
    have ha : a = n - 1 := by omega
    unfold run_config_from
    rw [if_pos (show a < n by omega), ha, hsucc]
    simp [fail_pattern]
  | succ k ih =>
    intro a n hn hfail hsucc
    have h2 : a < n - 1 := by omega
    have hoca : oc a = false := hfail a h2
    unfold run_config_from
    rw [if_pos (show a < n by omega), hoca]
    simp only [Bool.false_eq_true, if_false]
    rw [if_pos h2, ih (a + 1) n (by omega) hfail hsucc]
    simp [fail_pattern]

/-- C4: when the fetch+upload body raises on every attempt before the
last and succeeds on attempt `retry_attempts - 1`, the configuration's
retry loop counts it completed exactly once, never counts it failed, and
performs exactly `retry_attempts - 1` retry-delay sleeps. -/
theorem retry_until_final_success (n : Nat) (oc : Nat → Bool) (c : Config)
    (hn : 1 ≤ n) (hfail : ∀ i, i < n - 1 → oc i = false) (hsucc : oc (n - 1) = true) :
    (run_config n oc c).completed = 1 ∧ (run_config n oc c).failed = 0 ∧
    (run_config n oc c).events.countP Event.isRetrySleep = n - 1 := by
  have h := run_config_from_retries oc c (n - 1) 0 n (by omega) hfail hsucc
  unfold run_config
  rw [h]
  exact ⟨rfl, rfl, fail_pattern_countP c (n - 1)⟩

/-- A concrete configuration tuple used by the witnesses. -/
def pcConfig : Config := ⟨"PC", "Americas", "Quick Play", "All", "All"⟩

/-- C4 witness: `retry_attempts = 3`, failures on attempts 0 and 1,
success on attempt 2: completed once, never failed, two retry sleeps. -/
theorem retry_until_final_success_witness :
    (run_config 3 (fun i => decide (i = 2)) pcConfig).completed = 1 ∧
    (run_config 3 (fun i => decide (i = 2)) pcConfig).failed = 0 ∧
    (run_config 3 (fun i => decide (i = 2)) pcConfig).events.countP Event.isRetrySleep = 2 :=
  retry_until_final_success 3 (fun i => decide (i = 2)) pcConfig (by omega)
    (fun i hi => decide_eq_false (by omega)) (by decide)

theorem mem_build_configurations
    (platforms regions gamemodes tiers maps : List String) (c : Config) :
    c ∈ build_configurations platforms regions gamemodes tiers maps ↔
      ∃ p ∈ platforms, ∃ r ∈ regions, ∃ g ∈ gamemodes,
        ∃ t ∈ (if g = "Competitive" then tiers else ["All"]), ∃ m ∈ maps,
          c = ⟨p, r, g, m, t⟩ := by
  simp only [build_configurations, List.mem_flatMap, List.mem_map, beq_iff_eq]
  constructor
  · rintro ⟨p, hp, r, hr, g, hg, t, ht, m, hm, rfl⟩
    exact ⟨p, hp, r, hr, g, hg, t, ht, m, hm, rfl⟩
  · rintro ⟨p, hp, r, hr, g, hg, t, ht, m, hm, rfl⟩
    exact ⟨p, hp, r, hr, g, hg, t, ht, m, hm, rfl⟩

theorem run_sweep_cons_success (n : Nat) (fetches : Nat → Nat → HttpResult)
    (uploads : Nat → Nat → UploadResult) (c : Config) (rest : List Config) (idx : Nat)
    (hn : 0 < n)
    (h : attempt_outcome (fetches idx 0) (uploads idx 0)
        c.platform c.region c.gamemode c.map_name c.tier = true) :
    run_sweep n fetches uploads (c :: rest) idx =
      ⟨Event.cycle c :: Event.rateSleep :: (run_sweep n fetches uploads rest (idx + 1)).events,
       1 + (run_sweep n fetches uploads rest (idx + 1)).completed,
       (run_sweep n fetches uploads rest (idx + 1)).failed⟩ := by
  simp only [run_sweep]
  rw [run_config_first_success n _ c hn h]
  simp

/-- C5: the sweep driver's work list is exactly the Cartesian product
platform × region × gamemode × tier × map built in nested-loop order
(platform outermost, map innermost), with the tier dimension equal to
the configured tiers list exactly when the gamemode is "Competitive" and
to the singleton ["All"] otherwise; and a sweep over platforms [p1, p2],
regions [r1], gamemodes ["Quick Play"], maps ["All"] whose first
attempts succeed issues exactly two fetch+upload cycles, p1 before p2,
each followed by one rate-limit sleep, completing 2 and failing 0. -/
theorem sweep_cartesian_product_order :
    (∀ (platforms regions gamemodes tiers maps : List String) (c : Config),
        c ∈ build_configurations platforms regions gamemodes tiers maps ↔
          ∃ p ∈ platforms, ∃ r ∈ regions, ∃ g ∈ gamemodes,
            ∃ t ∈ (if g = "Competitive" then tiers else ["All"]), ∃ m ∈ maps,
              c = ⟨p, r, g, m, t⟩) ∧
    (∀ (p1 p2 r1 : String) (tiers : List String) (n : Nat)
        (fetches : Nat → Nat → HttpResult) (uploads : Nat → Nat → UploadResult),
        0 < n →
        attempt_outcome (fetches 0 0) (uploads 0 0) p1 r1 "Quick Play" "All" "All" = true →
        attempt_outcome (fetches 1 0) (uploads 1 0) p2 r1 "Quick Play" "All" "All" = true →
        scrape_all_configurations [p1, p2] [r1] ["Quick Play"] tiers ["All"] n
            fetches uploads =
          ⟨[.cycle ⟨p1, r1, "Quick Play", "All", "All"⟩, .rateSleep,
            .cycle ⟨p2, r1, "Quick Play", "All", "All"⟩, .rateSleep], 2, 0⟩) := by
  constructor
  · exact mem_build_configurations
  · intro p1 p2 r1 tiers n fetches uploads hn h1 h2
    have hcfg : build_configurations [p1, p2] [r1] ["Quick Play"] tiers ["All"] =
        [⟨p1, r1, "Quick Play", "All", "All"⟩, ⟨p2, r1, "Quick Play", "All", "All"⟩] := by
      simp [build_configurations]
    unfold scrape_all_configurations
    rw [hcfg, run_sweep_cons_success n fetches uploads _ _ 0 hn h1,
      run_sweep_cons_success n fetches uploads _ _ 1 hn h2]
    rfl

/-- C5 witness: platforms [PC, Console], region [Americas], gamemode
[Quick Play], map [All], with a well-formed envelope and a succeeding
upload on every call. -/
theorem sweep_cartesian_product_order_witness :
    scrape_all_configurations ["PC", "Console"] ["Americas"] ["Quick Play"] ["All"]
        ["All"] 3 (fun _ _ => .payload goodEnvelope) (fun _ _ => .success) =
      ⟨[.cycle ⟨"PC", "Americas", "Quick Play", "All", "All"⟩, .rateSleep,
        .cycle ⟨"Console", "Americas", "Quick Play", "All", "All"⟩, .rateSleep], 2, 0⟩ :=
  sweep_cartesian_product_order.2 "PC" "Console" "Americas" ["All"] 3
    (fun _ _ => .payload goodEnvelope) (fun _ _ => .success) (by omega) (by decide) (by decide)

/-- C10: a configuration whose first fetch ends in a transport failure
or a malformed response (non-JSON body, or body without a `"selected"`
dict) finishes on that first attempt: `fetchPage` converts the failure
into an empty list, the empty upload is a no-op, so the retry loop
performs no retry attempt and no retry-delay sleep (the trace is the one
cycle only), increments `completed`, and never increments `failed`. -/
theorem bad_fetch_completes_without_retry (n : Nat) (c : Config)
    (fetches : Nat → HttpResult) (uploads : Nat → UploadResult) (hn : 0 < n)
    (hbad : fetches 0 = .transportError ∨ fetches 0 = .badJson ∨
      ∃ data, fetches 0 = .payload data ∧ (data.isDict && data.hasKey "selected") = false) :
    run_config n (fun attempt =>
        attempt_outcome (fetches attempt) (uploads attempt)
          c.platform c.region c.gamemode c.map_name c.tier) c =
      ⟨[.cycle c], 1, 0⟩ := by
  have hscrape : _scrape_stats_page (fetches 0)
      c.platform c.region c.gamemode c.map_name c.tier = .ok [] := by
    rcases hbad with h | h | ⟨data, h, hsel⟩
    · rw [h]; exact (scrape_page_empty_on_bad_fetch _ _ _ _ _).1
    · rw [h]; exact (scrape_page_empty_on_bad_fetch _ _ _ _ _).2.1
    · rw [h]; exact (scrape_page_empty_on_bad_fetch _ _ _ _ _).2.2 data hsel
  have houtcome : attempt_outcome (fetches 0) (uploads 0)
      c.platform c.region c.gamemode c.map_name c.tier = true := by
    unfold attempt_outcome
    rw [hscrape]
    rfl
  exact run_config_first_success n _ c hn houtcome

/-- C10 witness: a transport error on every attempt at a concrete
configuration with `retry_attempts = 3`. -/
theorem bad_fetch_completes_without_retry_witness :
    run_config 3 (fun attempt =>
        attempt_outcome ((fun _ => HttpResult.transportError) attempt)
          ((fun _ => UploadResult.success) attempt)
          pcConfig.platform pcConfig.region pcConfig.gamemode pcConfig.map_name
          pcConfig.tier) pcConfig =
      ⟨[.cycle pcConfig], 1, 0⟩ :=
  bad_fetch_completes_without_retry 3 pcConfig (fun _ => .transportError)
    (fun _ => .success) (by omega) (Or.inl rfl)

end Ow2stats
